import Mathlib

/-!
Shallow embedding of the WiFi-card hardware test application
(`app/test_engine.py`, `app/gui.py`).

Host facilities (pyudev, netifaces, psutil, PowerShell, `netsh`, `nmcli`)
are modelled as explicit inputs: the registry / address tables they would
report are parameters, and the success of each external command is a field
of an environment record.  Python exceptions are modelled with `Except`
where the source lets them escape, and caught exceptions follow the
source's handlers.  Python string lowering and substring containment
( `s.lower()`, `a in b` ) are modelled on character lists.
-/

namespace WiFiCard

/-! ## Python string primitives -/

/-- Python `s.lower()` on the character list of a string. -/
def lowerStr (s : List Char) : List Char := s.map Char.toLower

/-- Python substring containment `needle in hay`. -/
def containsSub (hay needle : List Char) : Bool := decide (needle <:+: hay)

/-! ## test_engine — Linux branch (pyudev, netifaces, nmcli) -/

/-- One entry of the udev "net" registry as pyudev reports it. -/
structure UdevDevice where
  subsystem : String
  vendor_id : String
  model_id : String
  sys_name : String
deriving DecidableEq

/-- The property filter `ctx.list_devices(subsystem="net", ID_VENDOR_ID=vendor,
ID_MODEL_ID=product)` applies to one device. -/
def udevMatches (vendor product : String) (d : UdevDevice) : Bool :=
  d.subsystem == "net" && d.vendor_id == vendor && d.model_id == product

/-- Linux `scan_interfaces`: filter the udev registry by the requested
vendor/product identity and return the `sys_name` of each match. -/
def scan_interfaces_linux (devs : List UdevDevice) (vendor product : String) :
    List String :=
  (devs.filter (udevMatches vendor product)).map UdevDevice.sys_name

/-- The per-interface address table of `netifaces.ifaddresses`: the
`AF_INET` entry list and the `AF_LINK` entry list, each absent when the
family key is missing; an entry is modelled by its `addr` string. -/
structure AddrMap where
  inet : Option (List String)
  link : Option (List String)
deriving DecidableEq

/-- The host's interface table for the netifaces model. -/
abbrev NetHost := List (String × AddrMap)

/-- `netifaces.ifaddresses(iface)`: raises `ValueError` (modelled as
`Except.error`) when the interface does not exist on the host. -/
def ifaddresses (host : NetHost) (iface : String) : Except Unit AddrMap :=
  match host.lookup iface with
  | some m => Except.ok m
  | none => Except.error ()

/-- Linux `check_ip`: `netifaces.AF_INET in addrs and bool(addrs[netifaces.AF_INET])`.
The unguarded `ifaddresses` call propagates its error. -/
def check_ip_linux (host : NetHost) (iface : String) : Except Unit Bool :=
  match ifaddresses host iface with
  | Except.ok addrs =>
      Except.ok (match addrs.inet with
        | some l => !l.isEmpty
        | none => false)
  | Except.error e => Except.error e

/-- Linux `get_mac`: `link[0]['addr'] if link else "Unknown"` where
`link = addrs.get(netifaces.AF_LINK)`; a missing or empty `AF_LINK` entry
gives `"Unknown"`.  The unguarded `ifaddresses` call propagates its error. -/
def get_mac_linux (host : NetHost) (iface : String) : Except Unit String :=
  match ifaddresses host iface with
  | Except.ok addrs =>
      Except.ok (match addrs.link with
        | some (e :: _) => e
        | some [] => "Unknown"
        | none => "Unknown")
  | Except.error e => Except.error e

/-- Outcomes of the three `nmcli` commands run by the Linux `connect_wifi`. -/
structure NmcliEnv where
  radioOk : Bool
  rescanOk : Bool
  connectOk : Bool
deriving DecidableEq

/-- Linux `connect_wifi`: `radio wifi on`, `device wifi rescan`,
`device wifi connect ...` in sequence with `check=True` inside one `try`;
any `SubprocessError` (including the timeout of the last step) yields
`False`, otherwise `True`. -/
def connect_wifi_linux (env : NmcliEnv) (iface ssid password : String) : Bool :=
  env.radioOk && env.rescanOk && env.connectOk

/-! ## test_engine — Windows branch (PowerShell, netsh, psutil) -/

/-- One record of the PowerShell `Get-NetAdapter` JSON output
(`Select-Object Name,InterfaceDescription,Status`). -/
structure Nic where
  Name : String
  InterfaceDescription : String
  Status : String
deriving DecidableEq

/-- Outcome of the PowerShell invocation inside the Windows
`scan_interfaces`: the process can fail to run (`SubprocessError`,
timeout), its stdout can fail `json.loads`, or it parses to a single
object or to an array of records. -/
inductive PSScanOutcome
  | procFail
  | badJson (stdout : String)
  | jsonObj (n : Nic)
  | jsonArr (l : List Nic)
deriving DecidableEq

/-- The description filter of the Windows `scan_interfaces`:
`"usb wireless lan card" in nic["InterfaceDescription"].lower()`. -/
def nicMatches (n : Nic) : Bool :=
  containsSub (lowerStr n.InterfaceDescription.data) ("usb wireless lan card".data)

/-- Windows `scan_interfaces`: a process failure or malformed JSON raises
`RuntimeError`; a bare object is normalized to a one-element list; matching
records contribute their `Name`.  The `vendor`/`product` parameters are
accepted (with the same defaults as on Linux) but unused by the body. -/
def scan_interfaces_windows (ps : PSScanOutcome) (vendor product : String) :
    Except String (List String) :=
  match ps with
  | PSScanOutcome.procFail => Except.error "PowerShell scan failed"
  | PSScanOutcome.badJson _ => Except.error "Failed to parse JSON"
  | PSScanOutcome.jsonObj n => Except.ok ((([n] : List Nic).filter nicMatches).map Nic.Name)
  | PSScanOutcome.jsonArr l => Except.ok ((l.filter nicMatches).map Nic.Name)

/-- Address families distinguished by the Windows branch:
`socket.AF_INET` versus `psutil.AF_LINK` versus anything else. -/
inductive AddrFamily
  | af_inet
  | af_link
  | other
deriving DecidableEq

/-- One `snic` entry of `psutil.net_if_addrs()`. -/
structure SNic where
  family : AddrFamily
  address : String
deriving DecidableEq

/-- The host's interface table for the psutil model. -/
abbrev PsutilHost := List (String × List SNic)

/-- `psutil.net_if_addrs().get(iface, [])`: dict lookup with `[]` default. -/
def net_if_addrs_get (host : PsutilHost) (iface : String) : List SNic :=
  (host.lookup iface).getD []

/-- Windows `check_ip`: `any(a.family == socket.AF_INET for a in addrs)`. -/
def check_ip_windows (host : PsutilHost) (iface : String) : Bool :=
  (net_if_addrs_get host iface).any (fun a => a.family == AddrFamily.af_inet)

/-- Windows `get_mac`: the first `AF_LINK` entry's address, else `"Unknown"`. -/
def get_mac_windows (host : PsutilHost) (iface : String) : String :=
  match (net_if_addrs_get host iface).find? (fun s => s.family == AddrFamily.af_link) with
  | some s => s.address
  | none => "Unknown"

/-- Outcomes of the three `netsh wlan` commands run by the Windows
`connect_wifi`: `show profiles`, `add profile`, `connect`. -/
structure NetshEnv where
  showOk : Bool
  addOk : Bool
  connectOk : Bool
deriving DecidableEq

/-- Stdout of `netsh wlan show profiles interface=...`, modelled as the
stored profile names separated by line breaks. -/
def showProfilesStdout (profiles : List String) : List Char :=
  (profiles.map (fun p => p.data ++ [ '\n' ])).flatten

/-- `netsh wlan add profile` stores a named profile; a same-named profile
is overwritten, so the store stays duplicate-free. -/
def addProfile (profiles : List String) (ssid : String) : List String :=
  if ssid ∈ profiles then profiles else profiles ++ [ssid]

/-- Filesystem events on the transient XML profile artifact. -/
inductive FsEvent
  | writeTemp
  | removeTemp
deriving DecidableEq

/-- Whether the transient artifact exists after a trace of events
(it does not exist before the call: `NamedTemporaryFile` picks a fresh path). -/
def tempFileOnDisk (trace : List FsEvent) : Bool :=
  trace.foldl (fun _ e => match e with
    | FsEvent.writeTemp => true
    | FsEvent.removeTemp => false) false

/-- Result of the Windows `connect_wifi`: the returned boolean, the stored
profiles after the call, and the trace of filesystem events on the
transient XML artifact. -/
structure ConnectResult where
  ok : Bool
  profiles : List String
  fsTrace : List FsEvent
deriving DecidableEq

/-- Windows `connect_wifi`.  `show profiles` stdout is lowercased (a failed
query is caught and treated as the empty string) and searched for
`ssid.lower()` as a substring.  When absent, the XML profile is written to
a temp file and installed; a `SubprocessError` from `add profile` returns
`False`, and the `finally` block removes the temp file on both paths.
Then `netsh wlan connect` runs, bounded by the timeout; its failure is
caught and yields `False`. -/
def connect_wifi_windows (env : NetshEnv) (profiles : List String)
    (iface ssid password : String) : ConnectResult :=
  let profiles_output : List Char :=
    if env.showOk then lowerStr (showProfilesStdout profiles) else []
  if containsSub profiles_output (lowerStr ssid.data) = false then
    if env.addOk then
      ConnectResult.mk env.connectOk (addProfile profiles ssid)
        [FsEvent.writeTemp, FsEvent.removeTemp]
    else
      ConnectResult.mk false profiles
        [FsEvent.writeTemp, FsEvent.removeTemp]
  else
    ConnectResult.mk env.connectOk profiles []

/-! ## test_engine — random_mac -/

/-- One lowercase hex digit as Python `"%x"` renders it. -/
def hexDigitChar (n : Nat) : Char :=
  if n < 10 then Char.ofNat (48 + n) else Char.ofNat (87 + n)

/-- Python `f"{b:02x}"` on the byte range 0..255 produced by
`random.randint(0x00, 0xFF)`. -/
def formatHex2 (b : Nat) : String :=
  String.mk [hexDigitChar (b / 16 % 16), hexDigitChar (b % 16)]

/-- `random_mac`: the three random bytes are passed in as the values the
three `random.randint(0x00, 0xFF)` calls returned. -/
def random_mac (r3 r4 r5 : Nat) : String :=
  let mac : List Nat := [0x02, 0x00, 0x00, r3, r4, r5]
  String.intercalate ":" (mac.map formatHex2)

/-- A lowercase hexadecimal digit character. -/
def isHexLowerChar (c : Char) : Bool :=
  ( '0' ≤ c && c ≤ '9' ) || ( 'a' ≤ c && c ≤ 'f' )

/-- The MAC pattern `02:00:00:XX:XX:XX` with each `XX` two lowercase hex
digits. -/
def macPatternOk (s : String) : Bool :=
  match s.data with
  | [c1, c2, s1, c3, c4, s2, c5, c6, s3, x1, x2, s4, x3, x4, s5, x5, x6] =>
      c1 == '0' && c2 == '2' && s1 == ':' &&
      c3 == '0' && c4 == '0' && s2 == ':' &&
      c5 == '0' && c6 == '0' && s3 == ':' &&
      isHexLowerChar x1 && isHexLowerChar x2 && s4 == ':' &&
      isHexLowerChar x3 && isHexLowerChar x4 && s5 == ':' &&
      isHexLowerChar x5 && isHexLowerChar x6
  | _ => false

/-! ## gui — orchestrator state -/

/-- The `self.test_results` Python dict: an insertion-ordered association
list with unique keys. -/
abbrev Results := List (String × String)

/-- Python dict assignment `m[k] = v`: overwrite the entry in place when
the key is present, append otherwise. -/
def dictSet (m : Results) (k v : String) : Results :=
  if m.any (fun p => p.1 == k) then
    m.map (fun p => if p.1 == k then (k, v) else p)
  else
    m ++ [(k, v)]

/-- Effect of `refresh_interfaces` on `self.test_results`: for each
discovered interface, `self.test_results[iface] = "Pending"`.  The dict is
never cleared beforehand. -/
def refresh_results (m : Results) (discovered : List String) : Results :=
  discovered.foldl (fun acc i => dictSet acc i "Pending") m

/-- `test_interface` status computation: on the real path,
`ok = connect_wifi(...)` then `passed = ok and check_ip(iface)` with
Python short-circuit; on the simulated path `passed = True` with no engine
call.  Returns the status string stored into `self.test_results[iface]`
and whether `check_ip` was invoked. -/
def test_interface (simulate : Bool) (connectOk ipOk : Bool) : String × Bool :=
  if simulate = false then
    if connectOk then
      ((if ipOk then "PASS" else "FAIL"), true)
    else
      ("FAIL", false)
  else
    ("PASS", false)

/-- `save_results`: one record per interface of the current generation, in
order; `self.test_results.get(i, "Unknown")` supplies the status and
`macOf` abstracts `get_mac(i) if not self.simulate_result else random_mac()`. -/
def save_results (interfaces : List String) (m : Results)
    (macOf : String → String) : List (String × String) :=
  interfaces.map (fun i => (macOf i, ((m.lookup i).getD "Unknown")))

/-! ## Association-list (Python dict) lemmas -/

theorem lookup_map_overwrite_self (t : Results) (k v : String) :
    (t.map (fun p => if p.1 == k then (k, v) else p)).lookup k
      = (t.lookup k).map (fun _ => v) := by
  induction t with
  | nil => rfl
  | cons p t ih =>
    obtain ⟨a, b⟩ := p
    simp only [beq_iff_eq] at ih
    by_cases hp : a = k
    · subst hp
      simp [List.lookup_cons]
    · have hkb : (k == a) = false := beq_eq_false_iff_ne.mpr fun he => hp he.symm
      simp [List.lookup_cons, hp, hkb, ih]

theorem lookup_map_overwrite_ne (t : Results) (k v k' : String) (h : k' ≠ k) :
    (t.map (fun p => if p.1 == k then (k, v) else p)).lookup k' = t.lookup k' := by
  induction t with
  | nil => rfl
  | cons p t ih =>
    obtain ⟨a, b⟩ := p
    simp only [beq_iff_eq] at ih
    by_cases hp : a = k
    · have h1 : (k' == k) = false := beq_eq_false_iff_ne.mpr h
      have h2 : (k' == a) = false :=
        beq_eq_false_iff_ne.mpr fun he => h (he.trans hp)
      simp [List.lookup_cons, hp, h1, h2, ih]
    · by_cases hq : k' = a
      · simp [List.lookup_cons, hp, hq]
      · have hqb : (k' == a) = false := beq_eq_false_iff_ne.mpr hq
        simp [List.lookup_cons, hp, hqb, ih]

theorem dictSet_lookup_self (m : Results) (k v : String) :
    (dictSet m k v).lookup k = some v := by
  unfold dictSet
  by_cases ha : m.any (fun p => p.1 == k)
  · rw [if_pos ha, lookup_map_overwrite_self]
    have hs : (m.lookup k).isSome := by
      rcases List.any_eq_true.mp ha with ⟨p, hp, hpk⟩
      refine List.lookup_isSome_iff.mpr ⟨p, hp, ?_⟩
      simp only [beq_iff_eq] at hpk ⊢
      exact hpk.symm
    rcases Option.isSome_iff_exists.mp hs with ⟨b, hb⟩
    rw [hb]
    rfl
  · rw [if_neg ha, List.lookup_append]
    have ha' : m.any (fun p => p.1 == k) = false := Bool.eq_false_iff.mpr ha
    have hn : m.lookup k = none := by
      rw [List.lookup_eq_none_iff]
      intro p hp
      have hf := List.any_eq_false.mp ha' p hp
      simp only [beq_iff_eq] at hf
      simp only [bne_iff_ne, ne_eq]
      exact fun he => hf he.symm
    rw [hn]
    simp [List.lookup_cons]

theorem dictSet_lookup_ne (m : Results) (k v k' : String) (h : k' ≠ k) :
    (dictSet m k v).lookup k' = m.lookup k' := by
  unfold dictSet
  by_cases ha : m.any (fun p => p.1 == k)
  · rw [if_pos ha, lookup_map_overwrite_ne m k v k' h]
  · rw [if_neg ha, List.lookup_append]
    have : List.lookup k' [(k, v)] = none := by
      simp [List.lookup_cons, beq_eq_false_iff_ne.mpr h]
    rw [this, Option.or_none]

theorem dictSet_keys (m : Results) (k v : String) :
    (dictSet m k v).map Prod.fst =
      if m.any (fun p => p.1 == k) then m.map Prod.fst
      else m.map Prod.fst ++ [k] := by
  unfold dictSet
  by_cases h : m.any (fun p => p.1 == k)
  · rw [if_pos h, if_pos h, List.map_map]
    apply List.map_congr_left
    intro p _
    by_cases hk : p.1 = k
    · simp [Function.comp, hk]
    · simp [Function.comp, beq_eq_false_iff_ne.mpr hk]
  · rw [if_neg h, if_neg h, List.map_append]
    rfl

theorem dictSet_keys_nodup (m : Results) (k v : String)
    (h : (m.map Prod.fst).Nodup) : ((dictSet m k v).map Prod.fst).Nodup := by
  rw [dictSet_keys]
  by_cases ha : m.any (fun p => p.1 == k)
  · simpa [ha] using h
  · simp only [ha, if_false]
    refine h.append (List.nodup_singleton k) ?_
    intro x hx hx1
    rcases List.mem_map.mp hx with ⟨p, hp, hpx⟩
    rcases List.mem_singleton.mp hx1 with rfl
    have := List.any_eq_false.mp (Bool.eq_false_iff.mpr ha) p hp
    simp only [beq_iff_eq] at this
    exact this (by simpa using hpx)

theorem refresh_results_lookup (l : List String) (m : Results) (k : String) :
    (refresh_results m l).lookup k
      = if k ∈ l then some "Pending" else m.lookup k := by
  induction l generalizing m with
  | nil => simp [refresh_results]
  | cons i t ih =>
    have step : refresh_results m (i :: t)
        = refresh_results (dictSet m i "Pending") t := rfl
    rw [step, ih]
    by_cases ht : k ∈ t
    · simp [ht, List.mem_cons]
    · by_cases hi : k = i
      · subst hi
        simp [ht, dictSet_lookup_self]
      · simp [ht, hi, dictSet_lookup_ne m i "Pending" k hi]

theorem refresh_results_nodup (l : List String) (m : Results)
    (h : (m.map Prod.fst).Nodup) :
    ((refresh_results m l).map Prod.fst).Nodup := by
  induction l generalizing m with
  | nil => simpa [refresh_results] using h
  | cons i t ih =>
    have step : refresh_results m (i :: t)
        = refresh_results (dictSet m i "Pending") t := rfl
    rw [step]
    exact ih _ (dictSet_keys_nodup m i "Pending" h)

/-! ## Theorems -/

/-- Claim C1: on the real (non-simulated) test path, `test_interface`
assigns PASS iff `connect_wifi` returned true and `check_ip` returned
true; `check_ip` is invoked iff `connect_wifi` returned true (so a false
`connect_wifi` short-circuits straight to FAIL without invoking the IP
verifier), and every assigned status is PASS or FAIL. -/
theorem test_interface_truth_table (c ip : Bool) :
    ((test_interface false c ip).1 = "PASS" ↔ (c = true ∧ ip = true)) ∧
    (test_interface false c ip).2 = c ∧
    ((test_interface false c ip).1 = "PASS" ∨ (test_interface false c ip).1 = "FAIL") := by
  cases c <;> cases ip <;> simp [test_interface]

/-- Claim C3: evaluated on a host with no interfaces at all, the Windows
(psutil) `check_ip` returns `false` for a missing interface, but the Linux
(netifaces) `check_ip` propagates the `ValueError` of
`netifaces.ifaddresses` instead of returning `false`. -/
theorem check_ip_missing_iface_eval :
    check_ip_linux [] "wlan0" = Except.error () ∧
    check_ip_windows [] "wlan0" = false := by
  constructor <;> rfl

/-- Claim C4: evaluated on a host with no interfaces at all, the Windows
(psutil) `get_mac` returns the sentinel `"Unknown"` for a missing
interface, but the Linux (netifaces) `get_mac` propagates the `ValueError`
of `netifaces.ifaddresses` instead of returning the sentinel. -/
theorem get_mac_missing_iface_eval :
    get_mac_linux [] "wlan0" = Except.error () ∧
    get_mac_windows [] "wlan0" = "Unknown" := by
  constructor <;> rfl

/-- Claim C6: after any Windows `connect_wifi` call, whatever the host
responses and whether the call returned true or false, the transient XML
profile artifact no longer exists on disk. -/
theorem connect_windows_cleanup (env : NetshEnv) (profiles : List String)
    (iface ssid password : String) :
    tempFileOnDisk (connect_wifi_windows env profiles iface ssid password).fsTrace
      = false := by
  simp only [connect_wifi_windows]
  split_ifs <;> rfl

/-- Claim C2, counterexample: a handle tested PASS in a previous generation
survives a fresh discovery pass that does not return it, so after that
discovery the outcome mapping does not contain exactly the handles of the
current generation. -/
theorem refresh_keeps_stale_entry :
    refresh_results [("wlan0", "PASS")] ["wlan1"]
        = [("wlan0", "PASS"), ("wlan1", "Pending")] ∧
    ¬((refresh_results [("wlan0", "PASS")] ["wlan1"]).map Prod.fst = ["wlan1"]) := by
  constructor
  · rfl
  · intro hcontra
    simp [refresh_results, dictSet] at hcontra

/-- Claim C2, amended: after a discovery pass, every handle of the current
generation has status `"Pending"`, the mapping's keys stay duplicate-free
(so each handle has exactly one entry), but the mapping is not replaced:
an entry whose handle is not re-discovered keeps its old value. -/
theorem refresh_results_spec (m : Results) (l : List String)
    (h : (m.map Prod.fst).Nodup) :
    (∀ i ∈ l, (refresh_results m l).lookup i = some "Pending") ∧
    ((refresh_results m l).map Prod.fst).Nodup ∧
    (∀ k, k ∉ l → (refresh_results m l).lookup k = m.lookup k) := by
  refine ⟨?_, refresh_results_nodup l m h, ?_⟩
  · intro i hi
    rw [refresh_results_lookup]
    simp [hi]
  · intro k hk
    rw [refresh_results_lookup]
    simp [hk]

/-- Claim C2, witness for the amended statement at a concrete prior
mapping and discovery result. -/
theorem refresh_results_spec_witness :
    (∀ i ∈ ["wlan1"], (refresh_results [("wlan0", "PASS")] ["wlan1"]).lookup i
        = some "Pending") ∧
    ((refresh_results [("wlan0", "PASS")] ["wlan1"]).map Prod.fst).Nodup ∧
    (∀ k, k ∉ ["wlan1"] →
      (refresh_results [("wlan0", "PASS")] ["wlan1"]).lookup k
        = [("wlan0", "PASS")].lookup k) :=
  refresh_results_spec [("wlan0", "PASS")] ["wlan1"] (by simp)

/-- Claim C5: the scan distinguishes a failed host query from an empty
result.  A process failure or malformed JSON on Windows raises a
`RuntimeError`; a successful query whose records all fail the description
filter returns the empty list; the Linux scan of a registry with no
matching device returns the empty list without error. -/
theorem scan_failure_vs_empty (v p : String) :
    scan_interfaces_windows PSScanOutcome.procFail v p
        = Except.error "PowerShell scan failed" ∧
    (∀ s, scan_interfaces_windows (PSScanOutcome.badJson s) v p
        = Except.error "Failed to parse JSON") ∧
    (∀ l : List Nic, (∀ n ∈ l, nicMatches n = false) →
        scan_interfaces_windows (PSScanOutcome.jsonArr l) v p = Except.ok []) ∧
    (∀ devs : List UdevDevice, (∀ d ∈ devs, udevMatches v p d = false) →
        scan_interfaces_linux devs v p = []) := by
  refine ⟨rfl, fun _ => rfl, ?_, ?_⟩
  · intro l h
    have hf : l.filter nicMatches = [] := by
      rw [List.filter_eq_nil_iff]
      intro n hn
      simp [h n hn]
    simp [scan_interfaces_windows, hf]
  · intro devs h
    have hf : devs.filter (udevMatches v p) = [] := by
      rw [List.filter_eq_nil_iff]
      intro d hd
      simp [h d hd]
    simp [scan_interfaces_linux, hf]

/-- Claim C5, witness: concrete non-matching host states produce `ok []` /
`[]` rather than an error. -/
theorem scan_failure_vs_empty_witness :
    scan_interfaces_windows
        (PSScanOutcome.jsonArr [Nic.mk "Ethernet" "Realtek PCIe" "Up"])
        "148f" "7601" = Except.ok [] ∧
    scan_interfaces_linux [UdevDevice.mk "net" "0bda" "8153" "eth0"] "148f" "7601"
        = [] := by
  refine ⟨(scan_failure_vs_empty "148f" "7601").2.2.1 _ ?_,
          (scan_failure_vs_empty "148f" "7601").2.2.2 _ ?_⟩
  · intro n hn
    rcases List.mem_singleton.mp hn with rfl
    decide
  · intro d hd
    rcases List.mem_singleton.mp hd with rfl
    decide

/-- Claim C9: `save_results` emits one record per interface of the current
generation, in order, and an interface with no recorded outcome gets the
status string `"Unknown"`, which is outside the PASS/FAIL enumeration. -/
theorem save_results_missing_outcome (interfaces : List String) (m : Results)
    (macOf : String → String) (i : String) (hi : i ∈ interfaces)
    (hnone : m.lookup i = none) :
    (macOf i, "Unknown") ∈ save_results interfaces m macOf ∧
    (save_results interfaces m macOf).length = interfaces.length ∧
    ("Unknown" : String) ∉ (["PASS", "FAIL"] : List String) := by
  refine ⟨?_, by simp [save_results], by decide⟩
  have hmem := List.mem_map_of_mem
    (fun j => (macOf j, ((m.lookup j).getD "Unknown"))) hi
  simp only [hnone, Option.getD_none] at hmem
  simpa [save_results] using hmem

/-- Claim C9, witness at a concrete generation with an untested interface. -/
theorem save_results_missing_outcome_witness :
    ("aa:bb", "Unknown") ∈ save_results ["wlan0"] [] (fun _ => "aa:bb") ∧
    (save_results ["wlan0"] [] (fun _ => "aa:bb")).length = ["wlan0"].length ∧
    ("Unknown" : String) ∉ (["PASS", "FAIL"] : List String) :=
  save_results_missing_outcome ["wlan0"] [] (fun _ => "aa:bb") "wlan0"
    (by simp) rfl

theorem hexDigitChar_isHex : ∀ n : Nat, n < 16 → isHexLowerChar (hexDigitChar n) = true := by
  decide

theorem random_mac_data (r3 r4 r5 : Nat) :
    (random_mac r3 r4 r5).data =
      '0' :: '2' :: ':' :: '0' :: '0' :: ':' :: '0' :: '0' :: ':' ::
      hexDigitChar (r3 / 16 % 16) :: hexDigitChar (r3 % 16) :: ':' ::
      hexDigitChar (r4 / 16 % 16) :: hexDigitChar (r4 % 16) :: ':' ::
      hexDigitChar (r5 / 16 % 16) :: hexDigitChar (r5 % 16) :: [] := by
  have h0 : hexDigitChar (0x02 / 16 % 16) = '0' := by decide
  have h2 : hexDigitChar (0x02 % 16) = '2' := by decide
  have hz1 : hexDigitChar (0x00 / 16 % 16) = '0' := by decide
  have hz2 : hexDigitChar (0x00 % 16) = '0' := by decide
  have hsep : (":" : String).data = [ ':' ] := rfl
  simp [random_mac, String.intercalate, String.intercalate.go, formatHex2,
    String.data_append, h0, h2, hz1, hz2, hsep]

/-- Claim C8: every `random_mac` output (the three random bytes being
whatever `random.randint(0x00, 0xFF)` produced) matches
`02:00:00:XX:XX:XX` with each `XX` a two-digit lowercase hex byte. -/
theorem random_mac_pattern (r3 r4 r5 : Nat)
    (h3 : r3 ≤ 255) (h4 : r4 ≤ 255) (h5 : r5 ≤ 255) :
    macPatternOk (random_mac r3 r4 r5) = true := by
  have e3a := hexDigitChar_isHex (r3 / 16 % 16) (Nat.mod_lt _ (by decide))
  have e3b := hexDigitChar_isHex (r3 % 16) (Nat.mod_lt _ (by decide))
  have e4a := hexDigitChar_isHex (r4 / 16 % 16) (Nat.mod_lt _ (by decide))
  have e4b := hexDigitChar_isHex (r4 % 16) (Nat.mod_lt _ (by decide))
  have e5a := hexDigitChar_isHex (r5 / 16 % 16) (Nat.mod_lt _ (by decide))
  have e5b := hexDigitChar_isHex (r5 % 16) (Nat.mod_lt _ (by decide))
  unfold macPatternOk
  rw [random_mac_data]
  simp [e3a, e3b, e4a, e4b, e5a, e5b]

/-- Claim C8, witness at concrete bytes 0x00, 0xab, 0xff. -/
theorem random_mac_pattern_witness : macPatternOk (random_mac 0 171 255) = true :=
  random_mac_pattern 0 171 255 (by decide) (by decide) (by decide)

theorem mem_addProfile (profiles : List String) (ssid : String) :
    ssid ∈ addProfile profiles ssid := by
  unfold addProfile
  split
  · assumption
  · simp

theorem ssid_infix_of_mem (profiles : List String) (ssid : String)
    (h : ssid ∈ profiles) :
    containsSub (lowerStr (showProfilesStdout profiles)) (lowerStr ssid.data)
      = true := by
  simp only [containsSub, decide_eq_true_eq]
  have hmem : ssid.data ++ [ '\n' ] ∈ profiles.map (fun p => p.data ++ [ '\n' ]) :=
    List.mem_map_of_mem _ h
  have hflat : (ssid.data ++ [ '\n' ])
      <:+: (profiles.map (fun p => p.data ++ [ '\n' ])).flatten :=
    List.infix_of_mem_flatten hmem
  have hself : ssid.data <:+: (ssid.data ++ [ '\n' ]) := ⟨[], [ '\n' ], by simp⟩
  exact (hself.trans hflat).map Char.toLower

theorem connect_windows_skips_existing (env : NetshEnv) (profiles : List String)
    (iface ssid password : String)
    (hshow : env.showOk = true)
    (hmem : containsSub (lowerStr (showProfilesStdout profiles))
      (lowerStr ssid.data) = true) :
    connect_wifi_windows env profiles iface ssid password
      = ConnectResult.mk env.connectOk profiles [] := by
  unfold connect_wifi_windows
  rw [hshow]
  simp [hmem]

theorem connect_windows_second_check (env1 : NetshEnv) (profiles : List String)
    (iface ssid password : String)
    (hfirst : (connect_wifi_windows env1 profiles iface ssid password).ok = true) :
    containsSub
      (lowerStr (showProfilesStdout
        (connect_wifi_windows env1 profiles iface ssid password).profiles))
      (lowerStr ssid.data) = true := by
  by_cases hc : containsSub
      (if env1.showOk then lowerStr (showProfilesStdout profiles) else [])
      (lowerStr ssid.data) = false
  · by_cases hadd : env1.addOk = true
    · have hres : connect_wifi_windows env1 profiles iface ssid password
          = ConnectResult.mk env1.connectOk (addProfile profiles ssid)
              [FsEvent.writeTemp, FsEvent.removeTemp] := by
        unfold connect_wifi_windows
        rw [if_pos hc, if_pos hadd]
      rw [hres]
      exact ssid_infix_of_mem _ _ (mem_addProfile profiles ssid)
    · have hres : connect_wifi_windows env1 profiles iface ssid password
          = ConnectResult.mk false profiles
              [FsEvent.writeTemp, FsEvent.removeTemp] := by
        unfold connect_wifi_windows
        rw [if_pos hc, if_neg hadd]
      rw [hres] at hfirst
      exact absurd hfirst (by simp)
  · have hc' : containsSub
        (if env1.showOk then lowerStr (showProfilesStdout profiles) else [])
        (lowerStr ssid.data) = true := by simpa using hc
    have hres : connect_wifi_windows env1 profiles iface ssid password
        = ConnectResult.mk env1.connectOk profiles [] := by
      unfold connect_wifi_windows
      rw [if_neg (by simp [hc'])]
    rw [hres]
    by_cases hso : env1.showOk = true
    · rw [if_pos hso] at hc'
      exact hc'
    · rw [if_neg hso] at hc'
      simp only [containsSub, decide_eq_true_eq] at hc' ⊢
      rw [List.infix_nil] at hc'
      rw [hc']
      exact List.nil_infix

/-- Claim C7: a second `connect_wifi` call with the same interface, SSID
and passphrase, made after a first call that returned true, can only fail
if the `netsh wlan connect` command itself fails (its result equals the
connect-command outcome), and it skips profile creation: the stored
profiles are unchanged, so no duplicate profile results. -/
theorem connect_windows_idempotent (env1 env2 : NetshEnv)
    (profiles : List String) (iface ssid password : String)
    (hshow : env2.showOk = true)
    (hfirst : (connect_wifi_windows env1 profiles iface ssid password).ok = true) :
    (connect_wifi_windows env2
        (connect_wifi_windows env1 profiles iface ssid password).profiles
        iface ssid password).ok = env2.connectOk ∧
    (connect_wifi_windows env2
        (connect_wifi_windows env1 profiles iface ssid password).profiles
        iface ssid password).profiles
      = (connect_wifi_windows env1 profiles iface ssid password).profiles := by
  have h2 := connect_windows_second_check env1 profiles iface ssid password hfirst
  have hskip := connect_windows_skips_existing env2
    (connect_wifi_windows env1 profiles iface ssid password).profiles
    iface ssid password hshow h2
  rw [hskip]
  exact ⟨rfl, rfl⟩

/-- Claim C7, witness: first call installs the profile and connects; the
second call leaves the store unchanged and succeeds. -/
theorem connect_windows_idempotent_witness :
    (connect_wifi_windows (NetshEnv.mk true true true)
        (connect_wifi_windows (NetshEnv.mk true true true) [] "Wi-Fi" "MyNet" "pw").profiles
        "Wi-Fi" "MyNet" "pw").ok = (NetshEnv.mk true true true).connectOk ∧
    (connect_wifi_windows (NetshEnv.mk true true true)
        (connect_wifi_windows (NetshEnv.mk true true true) [] "Wi-Fi" "MyNet" "pw").profiles
        "Wi-Fi" "MyNet" "pw").profiles
      = (connect_wifi_windows (NetshEnv.mk true true true) [] "Wi-Fi" "MyNet" "pw").profiles :=
  connect_windows_idempotent (NetshEnv.mk true true true) (NetshEnv.mk true true true)
    [] "Wi-Fi" "MyNet" "pw" rfl (by decide)

/-- Claim C10: the Windows `scan_interfaces` body never reads its
`vendor`/`product` parameters, so under the same host state any two
identity arguments yield the same result. -/
theorem scan_windows_ignores_identity (ps : PSScanOutcome)
    (v1 p1 v2 p2 : String) :
    scan_interfaces_windows ps v1 p1 = scan_interfaces_windows ps v2 p2 := rfl

end WiFiCard
